import Mathlib

/-!
# Route table and request handlers of `src/routes.js`

A shallow embedding of the Express router defined in `src/routes.js`:

* the route table (method, path pattern, middleware chain, handler);
* Express dispatch of a middleware chain: middlewares run in registration
  order and the handler runs only when every one of them called `next()`;
* every handler, as a function from the behaviour of its collaborators
  (`./sessions`, `./utils`, the `whatsapp-web.js` client, `qrcode-terminal`,
  `fs`) to the ordered list of effects it performs for one request.
-/

namespace WhatsappApi

/-! ## JavaScript values -/

/-- JavaScript values, as far as the handlers look into them. `host` is an
object owned by a collaborator (a client, a sent message, a contact list);
`messageMedia` is an instance built by `new MessageMedia(...)`; `error` is
an `Error` object with its `message`. -/
inductive Val where
  | undefined : Val
  | null : Val
  | bool (b : Bool) : Val
  | num (n : Int) : Val
  | str (s : String) : Val
  | arr (items : List Val) : Val
  | obj (fields : List (String × Val)) : Val
  | host (n : Nat) : Val
  | messageMedia (mimetype data filename filesize : Val) : Val
  | error (message : Val) : Val

instance : Inhabited Val := ⟨Val.undefined⟩

/-- A thrown value or a promise rejection reason: an `Error` with its `message`. -/
structure JsError where
  message : Val

/-- The error object itself, as a value (the `error` passed whole in `startSession`). -/
def JsError.toVal (e : JsError) : Val := Val.error e.message

/-- An object literal: its own properties in source order. -/
abbrev Obj := List (String × Val)

/-- Reads `o[k]` on an object literal: `undefined` when the key is absent. -/
def Obj.get (o : Obj) (k : String) : Val := (o.lookup k).getD Val.undefined

/-- Whether the object literal has own property `k`. -/
def Obj.hasField (o : Obj) (k : String) : Bool := o.any (fun p => p.1 == k)

/-- Property read `v.k`: a `TypeError` on `undefined` and `null`, the field
of an object, `undefined` on any other value. -/
def Val.prop (v : Val) (k : String) : Except JsError Val :=
  match v with
  | Val.undefined => Except.error ⟨Val.str ("Cannot read properties of undefined (reading \x27" ++ k ++ "\x27)")⟩
  | Val.null => Except.error ⟨Val.str ("Cannot read properties of null (reading \x27" ++ k ++ "\x27)")⟩
  | Val.obj fields => Except.ok (Obj.get fields k)
  | Val.messageMedia mimetype data filename filesize =>
      Except.ok (Obj.get [("mimetype", mimetype), ("data", data), ("filename", filename),
        ("filesize", filesize)] k)
  | Val.error message => Except.ok (Obj.get [("message", message)] k)
  | _ => Except.ok Val.undefined

/-! ## Requests, effects, collaborators -/

/-- What a handler reads of the request: `req.params.sessionId` and
`req.body`, the JSON object produced by the body parser. -/
structure Request where
  sessionId : String
  body : Obj

/-- One observable step of a handler, in the order the handler performs them. -/
inductive Effect where
  /-- The call `res.json(body)` (status 200) or `res.status(status).json(body)`. -/
  | json (status : Nat) (body : Obj) : Effect
  /-- The call `sendErrorResponse(res, status, message)` of `./utils`. -/
  | sendErrorResponse (status : Nat) (message : Val) : Effect
  | consoleLog (args : List Val) : Effect
  | qrcodeGenerate (qr : Val) : Effect
  /-- The call `fs.writeFile(path, line, { flag: 'a+' }, _ => _)`; `isError`
  tells the `(ERROR) ` line of the catch block from the request line. -/
  | writeFile (path : String) (isError : Bool) (payload : Val) : Effect
  | setupSession (sessionId : String) : Effect
  | waitForNestedObject (root : Val) (path : String) : Effect
  /-- The promise returned by `waitForNestedObject` settles (resolves or rejects). -/
  | waitSettled : Effect
  | sessionsGet (sessionId : String) : Effect
  /-- The read `client.info`. -/
  | clientGet (client : Nat) (property : String) : Effect
  /-- The call `client.method(args)`. -/
  | clientCall (client : Nat) (method : String) (args : List Val) : Effect
  | messageMediaFromUrl (url : Val) : Effect
  | validateSession (sessionId : String) : Effect
  | deleteSession (sessionId : String) (validation : Val) : Effect
  | flushSessions (onlyInactive : Bool) : Effect

/-- What `setupSession` returns: `{ success, message, client }`. -/
structure SetupSessionReturn where
  success : Bool
  message : Val
  client : Val

/-- How the promise returned by `waitForNestedObject` ends. -/
inductive WaitOutcome where
  | resolves : WaitOutcome
  | rejects (err : JsError) : WaitOutcome
  | pending : WaitOutcome

/-- The behaviour of everything `routes.js` imports, for one request. Each
call either returns (a promise resolves) or throws (a promise rejects). -/
structure Env where
  /-- Field `sessionFolderPath` of `./config`. -/
  sessionFolderPath : String
  /-- The map `sessions` of `./sessions`: `sessions.get(id)` is a client or `undefined`. -/
  sessions : String → Option Nat
  setupSession : String → Except JsError SetupSessionReturn
  /-- The call `waitForNestedObject(root, path)` of `./utils` returns a promise
  (section 4.2 of the spec); this is how that promise ends. -/
  waitForNestedObject : Val → String → WaitOutcome
  validateSession : String → Except JsError Val
  deleteSession : String → Val → Except JsError Val
  flushSessions : Bool → Except JsError Val
  /-- The value of `client.info`. -/
  clientInfo : Nat → Val
  /-- The methods of a client: `sendMessage`, `isRegisteredUser`, `createGroup`,
  `setStatus`, `getContacts`, `getChats`, `getProfilePicUrl`. -/
  clientMethod : Nat → String → List Val → Except JsError Val
  /-- The static `MessageMedia.fromUrl(url)`. -/
  messageMediaFromUrl : Val → Except JsError Val
  /-- The call `qrcode.generate(qr, { small: true })`. -/
  qrcodeGenerate : Val → Except JsError Unit

/-! ## Running a handler body -/

/-- The effects performed so far and how the block ended: normally with a
value, or by a throw. -/
structure Run (α : Type) where
  trace : List Effect
  outcome : Except JsError α

namespace Run

/-- A block that does nothing and yields `a`. -/
def ret {α : Type} (a : α) : Run α := ⟨[], Except.ok a⟩

/-- Sequencing: the second block runs only when the first did not throw. -/
def andThen {α β : Type} (x : Run α) (f : α → Run β) : Run β :=
  match x.outcome with
  | Except.ok a => ⟨x.trace ++ (f a).trace, (f a).outcome⟩
  | Except.error e => ⟨x.trace, Except.error e⟩

instance : Monad Run where
  pure := ret
  bind := andThen

/-- Performs one effect. -/
def emit (e : Effect) : Run Unit := ⟨[e], Except.ok ()⟩

/-- A call into a collaborator: the call is performed, then it returns or throws. -/
def call {α : Type} (e : Effect) (result : Except JsError α) : Run α := ⟨[e], result⟩

/-- An expression that may throw without performing any effect. -/
def expr {α : Type} (result : Except JsError α) : Run α := ⟨[], result⟩

/-- The statement `try { body } catch (error) { handler(error) }`. -/
def tryCatch {α : Type} (body : Run α) (handler : JsError → Run α) : Run α :=
  match body.outcome with
  | Except.ok _ => body
  | Except.error e => ⟨body.trace ++ (handler e).trace, (handler e).outcome⟩

end Run

open Run

/-- The call `res.json(body)`. -/
def resJson (body : Obj) : Run Unit := emit (Effect.json 200 body)

/-- The call `res.status(status).json(body)`. -/
def resStatusJson (status : Nat) (body : Obj) : Run Unit := emit (Effect.json status body)

/-- The call `sendErrorResponse(res, status, message)`. -/
def sendErrorResponse (status : Nat) (message : Val) : Run Unit :=
  emit (Effect.sendErrorResponse status message)

/-- The lookup `sessions.get(req.params.sessionId)`. -/
def sessionsGet (env : Env) (sessionId : String) : Run (Option Nat) :=
  call (Effect.sessionsGet sessionId) (Except.ok (env.sessions sessionId))

/-- The call `client.method(args)`: a `TypeError`, and no call, when `client` is `undefined`. -/
def clientCall (env : Env) (client : Option Nat) (method : String) (args : List Val) :
    Run Val :=
  match client with
  | some c => call (Effect.clientCall c method args) (env.clientMethod c method args)
  | none => expr (Except.error
      ⟨Val.str ("Cannot read properties of undefined (reading \x27" ++ method ++ "\x27)")⟩)

/-- The read `client.info`: a `TypeError` when `client` is `undefined`. -/
def clientInfo (env : Env) (client : Option Nat) : Run Val :=
  match client with
  | some c => call (Effect.clientGet c "info") (Except.ok (env.clientInfo c))
  | none => expr (Except.error ⟨Val.str "Cannot read properties of undefined (reading \x27info\x27)"⟩)

/-! ## The handlers -/

/-- Handler of `GET /ping`. -/
def ping (_env : Env) (_req : Request) : Run Unit :=
  tryCatch
    (resJson [("success", Val.bool true), ("message", Val.str "pong")])
    (fun error => sendErrorResponse 500 error.message)

/-- Handler of `POST /localCallbackExample`. -/
def localCallbackExample (env : Env) (req : Request) : Run Unit :=
  tryCatch
    (do
      let dataType := req.body.get "dataType"
      let data := req.body.get "data"
      match dataType with
      | Val.str "qr" => do
          let qr ← expr (data.prop "qr")
          call (Effect.qrcodeGenerate qr) (env.qrcodeGenerate qr)
      | _ => pure ()
      emit (Effect.writeFile (env.sessionFolderPath ++ "/message_log.txt") false (Val.obj req.body))
      resJson [("success", Val.bool true)])
    (fun error => do
      emit (Effect.consoleLog [error.toVal])
      emit (Effect.writeFile (env.sessionFolderPath ++ "/message_log.txt") true error.toVal)
      sendErrorResponse 500 error.message)

/-- The synchronous part of the handler of `GET /api/startSession/:sessionId`:
everything up to the end of the `try` statement. It yields the promise chain
it left behind, if it started one. The argument of `.then(...)` is the call
`res.json(...)` itself, so it is evaluated while the chain is being built. -/
def startSessionSync (env : Env) (req : Request) : Run (Option WaitOutcome) :=
  tryCatch
    (do
      let sessionId := req.sessionId
      let setupSessionReturn ← call (Effect.setupSession sessionId) (env.setupSession sessionId)
      if !setupSessionReturn.success then
        sendErrorResponse 422 setupSessionReturn.message
        return none
      let promise ← call (Effect.waitForNestedObject setupSessionReturn.client "pupPage")
        (Except.ok (env.waitForNestedObject setupSessionReturn.client "pupPage"))
      resJson [("success", Val.bool true), ("message", setupSessionReturn.message)]
      return some promise)
    (fun error => do
      emit (Effect.consoleLog [Val.str "startSession ERROR", error.toVal])
      sendErrorResponse 500 error.toVal
      return none)

/-- The reactions of the chain `promise.then(<value of res.json(...)>).catch(cb)`
once `promise` settles: `.then` was given a non-function, so a resolution
passes through and nothing runs; a rejection reaches `cb`, which calls
`sendErrorResponse(res, 500, err.message)`. -/
def startSessionReactions : Option WaitOutcome → List Effect
  | none => []
  | some WaitOutcome.pending => []
  | some WaitOutcome.resolves => [Effect.waitSettled]
  | some (WaitOutcome.rejects err) => [Effect.waitSettled, Effect.sendErrorResponse 500 err.message]

/-- Handler of `GET /api/startSession/:sessionId`: the synchronous part, then
the reactions of the promise chain. -/
def startSession (env : Env) (req : Request) : List Effect :=
  (startSessionSync env req).trace ++
    match (startSessionSync env req).outcome with
    | Except.ok chain => startSessionReactions chain
    | Except.error _ => []

/-- The message of the `default` branch of the `contentType` switch. -/
def invalidContentTypeMessage : String :=
  "contentType invalid, must be string, MessageMedia, MessageMediaFromURL, Location, Buttons, or List"

/-- Handler of `POST /api/sendMessage/:sessionId`. -/
def sendMessage (env : Env) (req : Request) : Run Unit :=
  tryCatch
    (do
      let chatId := req.body.get "chatId"
      let content := req.body.get "content"
      let contentType := req.body.get "contentType"
      let options := req.body.get "options"
      let client ← sessionsGet env req.sessionId
      let messageOut ←
        match contentType with
        | Val.str "string" =>
            clientCall env client "sendMessage" [chatId, content, options]
        | Val.str "MessageMediaFromURL" => do
            let messageMediaFromURL ←
              call (Effect.messageMediaFromUrl content) (env.messageMediaFromUrl content)
            clientCall env client "sendMessage" [chatId, messageMediaFromURL, options]
        | Val.str "MessageMedia" => do
            let mimetype ← expr (content.prop "mimetype")
            let data ← expr (content.prop "data")
            let filename ← expr (content.prop "filename")
            let filesize ← expr (content.prop "filesize")
            let messageMedia := Val.messageMedia mimetype data filename filesize
            clientCall env client "sendMessage" [chatId, messageMedia, options]
        | _ => do
            sendErrorResponse 404 (Val.str invalidContentTypeMessage)
            return
      resJson [("success", Val.bool true), ("message", messageOut)])
    (fun error => do
      emit (Effect.consoleLog [error.toVal])
      sendErrorResponse 500 error.message)

/-- Handler of `GET /api/getSessionInfo/:sessionId`. -/
def getSessionInfo (env : Env) (req : Request) : Run Unit :=
  tryCatch
    (do
      let client ← sessionsGet env req.sessionId
      let sessionInfo ← clientInfo env client
      resJson [("success", Val.bool true), ("sessionInfo", sessionInfo)])
    (fun error => sendErrorResponse 500 error.message)

/-- Handler of `POST /api/isRegisteredUser/:sessionId`. -/
def isRegisteredUser (env : Env) (req : Request) : Run Unit :=
  tryCatch
    (do
      let id := req.body.get "id"
      let client ← sessionsGet env req.sessionId
      let isRegisteredUser ← clientCall env client "isRegisteredUser" [id]
      resJson [("success", Val.bool true), ("valid", isRegisteredUser)])
    (fun error => sendErrorResponse 500 error.message)

/-- Handler of `POST /api/createGroup/:sessionId`. -/
def createGroup (env : Env) (req : Request) : Run Unit :=
  tryCatch
    (do
      let name := req.body.get "name"
      let participants := req.body.get "participants"
      let client ← sessionsGet env req.sessionId
      let response ← clientCall env client "createGroup" [name, participants]
      resJson [("success", Val.bool true), ("response", response)])
    (fun error => sendErrorResponse 500 error.message)

/-- Handler of `POST /api/setStatus/:sessionId`. -/
def setStatus (env : Env) (req : Request) : Run Unit :=
  tryCatch
    (do
      let status := req.body.get "status"
      let client ← sessionsGet env req.sessionId
      let _ ← clientCall env client "setStatus" [status]
      resJson [("success", Val.bool true)])
    (fun error => sendErrorResponse 500 error.message)

/-- Handler of `GET /api/getContacts/:sessionId`. -/
def getContacts (env : Env) (req : Request) : Run Unit :=
  tryCatch
    (do
      let client ← sessionsGet env req.sessionId
      let contacts ← clientCall env client "getContacts" []
      resJson [("success", Val.bool true), ("contacts", contacts)])
    (fun error => sendErrorResponse 500 error.message)

/-- Handler of `GET /api/getChats/:sessionId`. -/
def getChats (env : Env) (req : Request) : Run Unit :=
  tryCatch
    (do
      let client ← sessionsGet env req.sessionId
      let chats ← clientCall env client "getChats" []
      resJson [("success", Val.bool true), ("chats", chats)])
    (fun error => sendErrorResponse 500 error.message)

/-- Handler of `POST /api/getProfilePicUrl/:sessionId`. -/
def getProfilePicUrl (env : Env) (req : Request) : Run Unit :=
  tryCatch
    (do
      let contactId := req.body.get "contactId"
      let client ← sessionsGet env req.sessionId
      let profilePicUrl ← clientCall env client "getProfilePicUrl" [contactId]
      resJson [("success", Val.bool true), ("profilePicUrl", profilePicUrl)])
    (fun error => sendErrorResponse 500 error.message)

/-- Handler of `GET /api/terminateSession/:sessionId`. -/
def terminateSession (env : Env) (req : Request) : Run Unit :=
  tryCatch
    (do
      let sessionId := req.sessionId
      let validation ← call (Effect.validateSession sessionId) (env.validateSession sessionId)
      let _ ← call (Effect.deleteSession sessionId validation)
        (env.deleteSession sessionId validation)
      resJson [("success", Val.bool true), ("message", Val.str "Logged out successfully")])
    (fun error =>
      resStatusJson 500 [("success", Val.bool false), ("message", error.message)])

/-- Handler of `GET /api/terminateInactiveSessions`. -/
def terminateInactiveSessions (env : Env) (_req : Request) : Run Unit :=
  tryCatch
    (do
      let _ ← call (Effect.flushSessions true) (env.flushSessions true)
      resJson [("success", Val.bool true), ("message", Val.str "Flush completed successfully")])
    (fun error =>
      resStatusJson 500 [("success", Val.bool false), ("message", error.message)])

/-- Handler of `GET /api/terminateAllSessions`. -/
def terminateAllSessions (env : Env) (_req : Request) : Run Unit :=
  tryCatch
    (do
      let _ ← call (Effect.flushSessions false) (env.flushSessions false)
      resJson [("success", Val.bool true), ("message", Val.str "Flush completed successfully")])
    (fun error =>
      resStatusJson 500 [("success", Val.bool false), ("message", error.message)])

/-! ## The route table -/

/-- The middlewares imported from `./middleware`. -/
inductive Middleware where
  | apikeyMiddleware
  | sessionValidationMiddleware
  | sessionNameValidationMiddleware
  | rateLimiterMiddleware
  deriving DecidableEq, Repr

/-- The HTTP verbs the router registers. -/
inductive Method where
  | get
  | post
  deriving DecidableEq, Repr

/-- One segment of an Express path pattern: a literal or a `:name` parameter. -/
inductive Segment where
  | lit (s : String)
  | param (name : String)
  deriving DecidableEq, Repr

/-- The handlers of `routes.js`, by the name of their endpoint. -/
inductive HandlerId where
  | ping
  | localCallbackExample
  | startSession
  | sendMessage
  | getSessionInfo
  | isRegisteredUser
  | createGroup
  | setStatus
  | getContacts
  | getChats
  | getProfilePicUrl
  | terminateSession
  | terminateInactiveSessions
  | terminateAllSessions
  deriving DecidableEq, Repr

/-- One registration `routes.get(path, middlewares, handler)` or `routes.post(...)`. -/
structure Route where
  method : Method
  path : List Segment
  middlewares : List Middleware
  handler : HandlerId
  deriving DecidableEq, Repr

open Middleware in
/-- The registrations of `routes.js`, in source order; `/localCallbackExample`
is registered only when `enableLocalCallbackExample` of `./config` is set. -/
def routes (enableLocalCallbackExample : Bool) : List Route :=
  [⟨Method.get, [Segment.lit "ping"], [], HandlerId.ping⟩] ++
  (if enableLocalCallbackExample then
    [⟨Method.post, [Segment.lit "localCallbackExample"],
      [apikeyMiddleware, rateLimiterMiddleware], HandlerId.localCallbackExample⟩]
   else []) ++
  [ ⟨Method.get, [Segment.lit "api", Segment.lit "startSession", Segment.param "sessionId"],
      [apikeyMiddleware, sessionNameValidationMiddleware], HandlerId.startSession⟩,
    ⟨Method.post, [Segment.lit "api", Segment.lit "sendMessage", Segment.param "sessionId"],
      [apikeyMiddleware, sessionNameValidationMiddleware, sessionValidationMiddleware],
      HandlerId.sendMessage⟩,
    ⟨Method.get, [Segment.lit "api", Segment.lit "getSessionInfo", Segment.param "sessionId"],
      [apikeyMiddleware, sessionNameValidationMiddleware, sessionValidationMiddleware],
      HandlerId.getSessionInfo⟩,
    ⟨Method.post, [Segment.lit "api", Segment.lit "isRegisteredUser", Segment.param "sessionId"],
      [apikeyMiddleware, sessionNameValidationMiddleware, sessionValidationMiddleware],
      HandlerId.isRegisteredUser⟩,
    ⟨Method.post, [Segment.lit "api", Segment.lit "createGroup", Segment.param "sessionId"],
      [apikeyMiddleware, sessionNameValidationMiddleware, sessionValidationMiddleware],
      HandlerId.createGroup⟩,
    ⟨Method.post, [Segment.lit "api", Segment.lit "setStatus", Segment.param "sessionId"],
      [apikeyMiddleware, sessionNameValidationMiddleware, sessionValidationMiddleware],
      HandlerId.setStatus⟩,
    ⟨Method.get, [Segment.lit "api", Segment.lit "getContacts", Segment.param "sessionId"],
      [apikeyMiddleware, sessionNameValidationMiddleware, sessionValidationMiddleware],
      HandlerId.getContacts⟩,
    ⟨Method.get, [Segment.lit "api", Segment.lit "getChats", Segment.param "sessionId"],
      [apikeyMiddleware, sessionNameValidationMiddleware, sessionValidationMiddleware],
      HandlerId.getChats⟩,
    ⟨Method.post, [Segment.lit "api", Segment.lit "getProfilePicUrl", Segment.param "sessionId"],
      [apikeyMiddleware, sessionNameValidationMiddleware, sessionValidationMiddleware],
      HandlerId.getProfilePicUrl⟩,
    ⟨Method.get, [Segment.lit "api", Segment.lit "terminateSession", Segment.param "sessionId"],
      [apikeyMiddleware, sessionNameValidationMiddleware], HandlerId.terminateSession⟩,
    ⟨Method.get, [Segment.lit "api", Segment.lit "terminateInactiveSessions"],
      [apikeyMiddleware], HandlerId.terminateInactiveSessions⟩,
    ⟨Method.get, [Segment.lit "api", Segment.lit "terminateAllSessions"],
      [apikeyMiddleware], HandlerId.terminateAllSessions⟩ ]

/-- Everything a handler does for one request, in order. -/
def runHandler (h : HandlerId) (env : Env) (req : Request) : List Effect :=
  match h with
  | HandlerId.ping => (ping env req).trace
  | HandlerId.localCallbackExample => (localCallbackExample env req).trace
  | HandlerId.startSession => startSession env req
  | HandlerId.sendMessage => (sendMessage env req).trace
  | HandlerId.getSessionInfo => (getSessionInfo env req).trace
  | HandlerId.isRegisteredUser => (isRegisteredUser env req).trace
  | HandlerId.createGroup => (createGroup env req).trace
  | HandlerId.setStatus => (setStatus env req).trace
  | HandlerId.getContacts => (getContacts env req).trace
  | HandlerId.getChats => (getChats env req).trace
  | HandlerId.getProfilePicUrl => (getProfilePicUrl env req).trace
  | HandlerId.terminateSession => (terminateSession env req).trace
  | HandlerId.terminateInactiveSessions => (terminateInactiveSessions env req).trace
  | HandlerId.terminateAllSessions => (terminateAllSessions env req).trace

/-! ## Express dispatch -/

/-- Runs a middleware chain the way Express does: in registration order,
stopping at the first middleware that does not call `next()`. `passes m req`
tells whether middleware `m` calls `next()` on `req`. The result is the list
of middlewares that were invoked and whether the end of the chain was reached. -/
def runChain (passes : Middleware → Request → Bool) (req : Request) :
    List Middleware → List Middleware × Bool
  | [] => ([], true)
  | m :: ms =>
      if passes m req then (m :: (runChain passes req ms).1, (runChain passes req ms).2)
      else ([m], false)

/-- What happened to one request on one route. -/
structure Dispatch where
  /-- The middlewares that were invoked, in order. -/
  invoked : List Middleware
  /-- The effects of the handler, or `none` when the handler was not reached. -/
  handled : Option (List Effect)

/-- Dispatch of a request that matches route `r`. -/
def dispatch (passes : Middleware → Request → Bool) (env : Env) (r : Route) (req : Request) :
    Dispatch :=
  ⟨(runChain passes req r.middlewares).1,
    if (runChain passes req r.middlewares).2 then some (runHandler r.handler env req) else none⟩

/-! ## Observations on a trace -/

/-- Modelled from the spec: `sendErrorResponse` is defined in `./utils`, which is
not among the sources; following section 7 (failures are translated "to a
message and suitable status") a call to it sends one response. With that,
this tells whether an effect sends a response. -/
def Effect.isResponse : Effect → Bool
  | Effect.json _ _ => true
  | Effect.sendErrorResponse _ _ => true
  | _ => false

/-- The responses sent, in order. -/
def responses (t : List Effect) : List Effect := t.filter Effect.isResponse

/-- Whether the effect reads the session registry with `sessions.get` or uses
the client found there. -/
def Effect.usesSessionClient : Effect → Bool
  | Effect.sessionsGet _ => true
  | Effect.clientGet _ _ => true
  | Effect.clientCall _ _ _ => true
  | _ => false

/-- Whether the effect is the settlement of the readiness wait. -/
def Effect.isWaitSettled : Effect → Bool
  | Effect.waitSettled => true
  | _ => false

/-- The effects performed before the readiness wait settles. -/
def beforeWaitSettled (t : List Effect) : List Effect :=
  t.takeWhile (fun e => !e.isWaitSettled)

/-- The calls of `flushSessions`, by their argument. -/
def flushCalls (t : List Effect) : List Bool :=
  t.filterMap (fun e => match e with
    | Effect.flushSessions onlyInactive => some onlyInactive
    | _ => none)

/-- The calls of a method of any client, with the client and the arguments. -/
def methodCalls (method : String) (t : List Effect) : List (Nat × List Val) :=
  t.filterMap (fun e => match e with
    | Effect.clientCall c m args => if m = method then some (c, args) else none
    | _ => none)

/-- The case labels of the `contentType` switch of `sendMessage` that are not
commented out. -/
def acceptedContentTypes : List String := ["string", "MessageMediaFromURL", "MessageMedia"]

/-- The content types that `invalidContentTypeMessage` names. -/
def namedContentTypes : List String :=
  ["string", "MessageMedia", "MessageMediaFromURL", "Location", "Buttons", "List"]

/-- The rejection of the `default` branch of the `contentType` switch. -/
def invalidContentTypeRejection : Effect :=
  Effect.sendErrorResponse 404 (Val.str invalidContentTypeMessage)

/-- The acknowledgement of `startSession`. -/
def startSessionAck (message : Val) : Effect :=
  Effect.json 200 [("success", Val.bool true), ("message", message)]

/-- The success response of the two flush routes. -/
def flushSuccess : Effect :=
  Effect.json 200 [("success", Val.bool true), ("message", Val.str "Flush completed successfully")]

/-- The success response of `terminateSession`. -/
def terminateSuccess : Effect :=
  Effect.json 200 [("success", Val.bool true), ("message", Val.str "Logged out successfully")]

/-- The failure response of `terminateSession` and of the flush routes. -/
def failure500 (error : JsError) : Effect :=
  Effect.json 500 [("success", Val.bool false), ("message", error.message)]

/-- The error of the taxonomy of section 7 for an unknown or removed id. -/
def notFound : JsError := ⟨Val.str "NotFound"⟩

/-- Modelled from the spec: `deleteSession` is defined in `./sessions`, which is
not among the sources. Section 4.4: Delete "looks up the handle (fails with
`NotFound` if absent)"; for a handle that is present it completes. -/
def deleteSessionSpec (sessions : String → Option Nat) (sessionId : String)
    (_validation : Val) : Except JsError Val :=
  match sessions sessionId with
  | none => Except.error notFound
  | some _ => Except.ok Val.undefined

/-- The handlers whose direct responses carry a `message` field. -/
def messageRoutes : List HandlerId :=
  [HandlerId.ping, HandlerId.startSession, HandlerId.sendMessage, HandlerId.terminateSession,
    HandlerId.terminateInactiveSessions, HandlerId.terminateAllSessions]

/-- The `TypeError` of reading `name` on an `undefined` client. -/
def undefinedClientError (name : String) : JsError :=
  ⟨Val.str ("Cannot read properties of undefined (reading \x27" ++ name ++ "\x27)")⟩

/-- The shape shared by the handlers that look the client up and call one
method on it: the lookup, the call when there is a client, and one response. -/
def capabilityTrace (env : Env) (sessionId method : String) (args : List Val)
    (body : Val → Obj) : List Effect :=
  Effect.sessionsGet sessionId ::
    match env.sessions sessionId with
    | none => [Effect.sendErrorResponse 500 (undefinedClientError method).message]
    | some c =>
        Effect.clientCall c method args ::
          match env.clientMethod c method args with
          | Except.ok v => [Effect.json 200 (body v)]
          | Except.error e => [Effect.sendErrorResponse 500 e.message]

/-- The catch block of `sendMessage`: the error is logged, then reported with status 500. -/
def catchTrace (e : JsError) : List Effect :=
  [Effect.consoleLog [e.toVal], Effect.sendErrorResponse 500 e.message]

/-- The call `client.sendMessage(args)` of `sendMessage` and the response that follows. -/
def sendTrace (env : Env) (sessionId : String) (args : List Val) : List Effect :=
  match env.sessions sessionId with
  | none => catchTrace (undefinedClientError "sendMessage")
  | some c =>
      Effect.clientCall c "sendMessage" args ::
        match env.clientMethod c "sendMessage" args with
        | Except.ok messageOut => [Effect.json 200 [("success", Val.bool true), ("message", messageOut)]]
        | Except.error e => catchTrace e

/-- The expression `new MessageMedia(content.mimetype, content.data, content.filename,
content.filesize)`: it throws when `content` is `undefined` or `null`. -/
def messageMediaOf (content : Val) : Except JsError Val := do
  let mimetype ← content.prop "mimetype"
  let data ← content.prop "data"
  let filename ← content.prop "filename"
  let filesize ← content.prop "filesize"
  pure (Val.messageMedia mimetype data filename filesize)

/-- What every effect of a `sendMessage` request with an enabled content type
satisfies: an error report has status 500, and a direct response is the
success response with some `message`. -/
def sendEffectOk (e : Effect) : Prop :=
  (∀ st m, e = Effect.sendErrorResponse st m → st = 500) ∧
    (∀ st body, e = Effect.json st body →
      st = 200 ∧ ∃ m, body = [("success", Val.bool true), ("message", m)])

/-- The handlers that never read the registry with `sessions.get` nor use a client. -/
def clientlessHandlers : List HandlerId :=
  [HandlerId.ping, HandlerId.localCallbackExample, HandlerId.startSession,
    HandlerId.terminateSession, HandlerId.terminateInactiveSessions,
    HandlerId.terminateAllSessions]

/-! ## Sample collaborators -/

/-- A registry holding the single session `"abc"`, whose client answers every
call; `setupSession` succeeds and the readiness wait times out. -/
def sampleEnv : Env where
  sessionFolderPath := "./sessions"
  sessions := fun s => if s = "abc" then some 7 else none
  setupSession := fun _ =>
    Except.ok ⟨true, Val.str "Session initiated successfully", Val.host 7⟩
  waitForNestedObject := fun _ _ => WaitOutcome.rejects ⟨Val.str "Timeout waiting for nested object"⟩
  validateSession := fun s =>
    if s = "abc" then Except.ok (Val.obj [("success", Val.bool true)])
    else Except.ok (Val.obj [("success", Val.bool false), ("message", Val.str "session_not_found")])
  deleteSession := deleteSessionSpec (fun s => if s = "abc" then some 7 else none)
  flushSessions := fun _ =>
    Except.ok (Val.obj [("deleted", Val.arr [Val.str "abc"]), ("failed", Val.arr [])])
  clientInfo := fun _ => Val.host 1
  clientMethod := fun _ _ _ => Except.ok (Val.host 99)
  messageMediaFromUrl := fun _ => Except.ok (Val.host 5)
  qrcodeGenerate := fun _ => Except.ok ()

/-- The collaborators of `sampleEnv`, with a flush that reports a failed delete. -/
def sampleEnvFlushFailed : Env :=
  { sampleEnv with
    flushSessions := fun _ =>
      Except.ok (Val.obj [("deleted", Val.arr []),
        ("failed", Val.arr [Val.obj [("id", Val.str "abc"), ("reason", Val.str "Timeout")]])]) }

/-! ## The trace of each handler -/

theorem ping_trace (env : Env) (req : Request) :
    (ping env req).trace =
      [Effect.json 200 [("success", Val.bool true), ("message", Val.str "pong")]] := by
  simp [ping, Run.tryCatch, resJson, emit]

theorem startSession_trace (env : Env) (req : Request) :
    startSession env req =
      Effect.setupSession req.sessionId ::
        match env.setupSession req.sessionId with
        | Except.error e =>
            [Effect.consoleLog [Val.str "startSession ERROR", e.toVal],
              Effect.sendErrorResponse 500 e.toVal]
        | Except.ok s =>
            if s.success then
              [Effect.waitForNestedObject s.client "pupPage", startSessionAck s.message] ++
                startSessionReactions (some (env.waitForNestedObject s.client "pupPage"))
            else [Effect.sendErrorResponse 422 s.message] := by
  unfold startSession startSessionSync
  cases h : env.setupSession req.sessionId with
  | error e =>
      simp [Run.tryCatch, bind, andThen, call, emit, sendErrorResponse, pure, ret, h,
        startSessionReactions]
  | ok s =>
      cases hs : s.success <;>
        simp [Run.tryCatch, bind, andThen, call, emit, sendErrorResponse, resJson, pure, ret, h,
          hs, startSessionReactions, startSessionAck]

theorem capability_trace (env : Env) (sessionId method : String) (args : List Val)
    (body : Val → Obj) :
    (Run.tryCatch
        (do
          let client ← sessionsGet env sessionId
          let v ← clientCall env client method args
          resJson (body v))
        (fun error => sendErrorResponse 500 error.message)).trace =
      capabilityTrace env sessionId method args body := by
  unfold capabilityTrace
  cases h : env.sessions sessionId with
  | none =>
      simp [Run.tryCatch, bind, andThen, call, expr, emit, sendErrorResponse, sessionsGet,
        clientCall, h, undefinedClientError]
  | some c =>
      cases hc : env.clientMethod c method args <;>
        simp [Run.tryCatch, bind, andThen, call, expr, emit, sendErrorResponse, resJson,
          sessionsGet, clientCall, h, hc]

theorem isRegisteredUser_trace (env : Env) (req : Request) :
    (isRegisteredUser env req).trace =
      capabilityTrace env req.sessionId "isRegisteredUser" [req.body.get "id"]
        (fun v => [("success", Val.bool true), ("valid", v)]) :=
  capability_trace env req.sessionId "isRegisteredUser" [req.body.get "id"] _

theorem createGroup_trace (env : Env) (req : Request) :
    (createGroup env req).trace =
      capabilityTrace env req.sessionId "createGroup"
        [req.body.get "name", req.body.get "participants"]
        (fun v => [("success", Val.bool true), ("response", v)]) :=
  capability_trace env req.sessionId "createGroup" _ _

theorem setStatus_trace (env : Env) (req : Request) :
    (setStatus env req).trace =
      capabilityTrace env req.sessionId "setStatus" [req.body.get "status"]
        (fun _ => [("success", Val.bool true)]) :=
  capability_trace env req.sessionId "setStatus" _ (fun _ => [("success", Val.bool true)])

theorem getContacts_trace (env : Env) (req : Request) :
    (getContacts env req).trace =
      capabilityTrace env req.sessionId "getContacts" []
        (fun v => [("success", Val.bool true), ("contacts", v)]) :=
  capability_trace env req.sessionId "getContacts" _ _

theorem getChats_trace (env : Env) (req : Request) :
    (getChats env req).trace =
      capabilityTrace env req.sessionId "getChats" []
        (fun v => [("success", Val.bool true), ("chats", v)]) :=
  capability_trace env req.sessionId "getChats" _ _

theorem getProfilePicUrl_trace (env : Env) (req : Request) :
    (getProfilePicUrl env req).trace =
      capabilityTrace env req.sessionId "getProfilePicUrl" [req.body.get "contactId"]
        (fun v => [("success", Val.bool true), ("profilePicUrl", v)]) :=
  capability_trace env req.sessionId "getProfilePicUrl" _ _

theorem getSessionInfo_trace (env : Env) (req : Request) :
    (getSessionInfo env req).trace =
      Effect.sessionsGet req.sessionId ::
        match env.sessions req.sessionId with
        | none => [Effect.sendErrorResponse 500 (undefinedClientError "info").message]
        | some c =>
            [Effect.clientGet c "info",
              Effect.json 200 [("success", Val.bool true), ("sessionInfo", env.clientInfo c)]] := by
  unfold getSessionInfo
  cases h : env.sessions req.sessionId <;>
    simp [Run.tryCatch, bind, andThen, call, expr, emit, sendErrorResponse, resJson,
      sessionsGet, clientInfo, h, undefinedClientError]

theorem terminateSession_trace (env : Env) (req : Request) :
    (terminateSession env req).trace =
      Effect.validateSession req.sessionId ::
        match env.validateSession req.sessionId with
        | Except.error e => [failure500 e]
        | Except.ok validation =>
            Effect.deleteSession req.sessionId validation ::
              match env.deleteSession req.sessionId validation with
              | Except.error e => [failure500 e]
              | Except.ok _ => [terminateSuccess] := by
  unfold terminateSession
  cases h : env.validateSession req.sessionId with
  | error e =>
      simp [Run.tryCatch, bind, andThen, call, emit, resStatusJson, h, failure500]
  | ok validation =>
      cases hd : env.deleteSession req.sessionId validation <;>
        simp [Run.tryCatch, bind, andThen, call, emit, resStatusJson, resJson, h, hd,
          failure500, terminateSuccess]

theorem terminateInactiveSessions_trace (env : Env) (req : Request) :
    (terminateInactiveSessions env req).trace =
      Effect.flushSessions true ::
        match env.flushSessions true with
        | Except.error e => [failure500 e]
        | Except.ok _ => [flushSuccess] := by
  unfold terminateInactiveSessions
  cases h : env.flushSessions true <;>
    simp [Run.tryCatch, bind, andThen, call, emit, resStatusJson, resJson, h, failure500,
      flushSuccess]

theorem terminateAllSessions_trace (env : Env) (req : Request) :
    (terminateAllSessions env req).trace =
      Effect.flushSessions false ::
        match env.flushSessions false with
        | Except.error e => [failure500 e]
        | Except.ok _ => [flushSuccess] := by
  unfold terminateAllSessions
  cases h : env.flushSessions false <;>
    simp [Run.tryCatch, bind, andThen, call, emit, resStatusJson, resJson, h, failure500,
      flushSuccess]

theorem sendMessage_string (env : Env) (req : Request)
    (h : req.body.get "contentType" = Val.str "string") :
    (sendMessage env req).trace =
      Effect.sessionsGet req.sessionId ::
        sendTrace env req.sessionId
          [req.body.get "chatId", req.body.get "content", req.body.get "options"] := by
  unfold sendMessage sendTrace
  cases hs : env.sessions req.sessionId with
  | none =>
      simp [Run.tryCatch, bind, andThen, call, expr, emit, sendErrorResponse, resJson,
        sessionsGet, clientCall, h, hs, catchTrace, undefinedClientError]
  | some c =>
      cases hc : env.clientMethod c "sendMessage"
          [req.body.get "chatId", req.body.get "content", req.body.get "options"] <;>
        simp [Run.tryCatch, bind, andThen, call, expr, emit, sendErrorResponse, resJson,
          sessionsGet, clientCall, h, hs, hc, catchTrace]

theorem sendMessage_default (env : Env) (req : Request)
    (h1 : req.body.get "contentType" ≠ Val.str "string")
    (h2 : req.body.get "contentType" ≠ Val.str "MessageMediaFromURL")
    (h3 : req.body.get "contentType" ≠ Val.str "MessageMedia") :
    (sendMessage env req).trace =
      [Effect.sessionsGet req.sessionId, invalidContentTypeRejection] := by
  unfold sendMessage
  simp [Run.tryCatch, bind, andThen, call, expr, emit, sendErrorResponse, resJson,
    sessionsGet, invalidContentTypeRejection, pure, ret, h1, h2, h3]

theorem sendMessage_fromUrl (env : Env) (req : Request)
    (h : req.body.get "contentType" = Val.str "MessageMediaFromURL") :
    (sendMessage env req).trace =
      Effect.sessionsGet req.sessionId ::
        Effect.messageMediaFromUrl (req.body.get "content") ::
          match env.messageMediaFromUrl (req.body.get "content") with
          | Except.error e => catchTrace e
          | Except.ok media =>
              sendTrace env req.sessionId [req.body.get "chatId", media, req.body.get "options"] := by
  unfold sendMessage sendTrace
  cases hm : env.messageMediaFromUrl (req.body.get "content") with
  | error e =>
      simp [Run.tryCatch, bind, andThen, call, expr, emit, sendErrorResponse, resJson,
        sessionsGet, clientCall, h, hm, catchTrace]
  | ok media =>
      cases hs : env.sessions req.sessionId with
      | none =>
          simp [Run.tryCatch, bind, andThen, call, expr, emit, sendErrorResponse, resJson,
            sessionsGet, clientCall, h, hm, hs, catchTrace, undefinedClientError]
      | some c =>
          cases hc : env.clientMethod c "sendMessage"
              [req.body.get "chatId", media, req.body.get "options"] <;>
            simp [Run.tryCatch, bind, andThen, call, expr, emit, sendErrorResponse, resJson,
              sessionsGet, clientCall, h, hm, hs, hc, catchTrace]

theorem sendMessage_media (env : Env) (req : Request)
    (h : req.body.get "contentType" = Val.str "MessageMedia") :
    (sendMessage env req).trace =
      Effect.sessionsGet req.sessionId ::
        match messageMediaOf (req.body.get "content") with
        | Except.error e => catchTrace e
        | Except.ok media =>
            sendTrace env req.sessionId [req.body.get "chatId", media, req.body.get "options"] := by
  unfold sendMessage sendTrace messageMediaOf
  cases h1 : (req.body.get "content").prop "mimetype" with
  | error e =>
      simp [Run.tryCatch, bind, andThen, call, expr, emit, sendErrorResponse, resJson,
        sessionsGet, clientCall, h, h1, catchTrace, Except.bind]
  | ok mimetype =>
    cases h2 : (req.body.get "content").prop "data" with
    | error e =>
        simp [Run.tryCatch, bind, andThen, call, expr, emit, sendErrorResponse, resJson,
          sessionsGet, clientCall, h, h1, h2, catchTrace, Except.bind]
    | ok data =>
      cases h3 : (req.body.get "content").prop "filename" with
      | error e =>
          simp [Run.tryCatch, bind, andThen, call, expr, emit, sendErrorResponse, resJson,
            sessionsGet, clientCall, h, h1, h2, h3, catchTrace, Except.bind]
      | ok filename =>
        cases h4 : (req.body.get "content").prop "filesize" with
        | error e =>
            simp [Run.tryCatch, bind, andThen, call, expr, emit, sendErrorResponse, resJson,
              sessionsGet, clientCall, h, h1, h2, h3, h4, catchTrace, Except.bind]
        | ok filesize =>
            cases hs : env.sessions req.sessionId with
            | none =>
                simp [Run.tryCatch, bind, andThen, call, expr, emit, sendErrorResponse, resJson,
                  sessionsGet, clientCall, h, h1, h2, h3, h4, hs, catchTrace, Except.bind,
                  undefinedClientError, pure, Except.pure]
            | some c =>
                cases hc : env.clientMethod c "sendMessage"
                    [req.body.get "chatId", Val.messageMedia mimetype data filename filesize,
                      req.body.get "options"] <;>
                  simp [Run.tryCatch, bind, andThen, call, expr, emit, sendErrorResponse,
                    resJson, sessionsGet, clientCall, h, h1, h2, h3, h4, hs, hc, catchTrace,
                    Except.bind, pure, Except.pure]

theorem localCallbackExample_trace (env : Env) (req : Request) :
    ∃ pre : List Effect, (∀ e ∈ pre, e.isResponse = false ∧ e.usesSessionClient = false) ∧
      ((localCallbackExample env req).trace =
          pre ++ [Effect.json 200 [("success", Val.bool true)]] ∨
        ∃ err : JsError, (localCallbackExample env req).trace =
          pre ++ [Effect.sendErrorResponse 500 err.message]) := by
  unfold localCallbackExample
  by_cases hq : req.body.get "dataType" = Val.str "qr"
  · cases hp : (req.body.get "data").prop "qr" with
    | error e =>
        refine ⟨[Effect.consoleLog [e.toVal],
          Effect.writeFile (env.sessionFolderPath ++ "/message_log.txt") true e.toVal], ?_,
          Or.inr ⟨e, ?_⟩⟩
        · simp [Effect.isResponse, Effect.usesSessionClient]
        · simp [Run.tryCatch, bind, andThen, call, expr, emit, sendErrorResponse, resJson,
            hq, hp]
    | ok qr =>
        cases hg : env.qrcodeGenerate qr with
        | error e =>
            refine ⟨[Effect.qrcodeGenerate qr, Effect.consoleLog [e.toVal],
              Effect.writeFile (env.sessionFolderPath ++ "/message_log.txt") true e.toVal], ?_,
              Or.inr ⟨e, ?_⟩⟩
            · simp [Effect.isResponse, Effect.usesSessionClient]
            · simp [Run.tryCatch, bind, andThen, call, expr, emit, sendErrorResponse, resJson,
                hq, hp, hg]
        | ok u =>
            refine ⟨[Effect.qrcodeGenerate qr,
              Effect.writeFile (env.sessionFolderPath ++ "/message_log.txt") false
                (Val.obj req.body)], ?_, Or.inl ?_⟩
            · simp [Effect.isResponse, Effect.usesSessionClient]
            · simp [Run.tryCatch, bind, andThen, call, expr, emit, sendErrorResponse, resJson,
                hq, hp, hg]
  · refine ⟨[Effect.writeFile (env.sessionFolderPath ++ "/message_log.txt") false
      (Val.obj req.body)], ?_, Or.inl ?_⟩
    · simp [Effect.isResponse, Effect.usesSessionClient]
    · simp [Run.tryCatch, bind, andThen, call, expr, emit, sendErrorResponse, resJson,
        hq, pure, ret]

/-! ## The flush routes -/

/-- C5: `terminateInactiveSessions` calls `flushSessions` exactly once, with
`true`, and `terminateAllSessions` exactly once, with `false`; each responds
`{success: true, message: 'Flush completed successfully'}` exactly when that
call completes without throwing, and with status 500 and
`{success: false, message: error.message}` when it throws `error`. -/
theorem flush_routes_call_once_and_report_completion (env : Env) (req : Request) :
    (flushCalls (terminateInactiveSessions env req).trace = [true] ∧
      ((∃ v, env.flushSessions true = Except.ok v) ↔
        responses (terminateInactiveSessions env req).trace = [flushSuccess]) ∧
      responses (terminateInactiveSessions env req).trace =
        [match env.flushSessions true with
          | Except.ok _ => flushSuccess
          | Except.error error => failure500 error]) ∧
    (flushCalls (terminateAllSessions env req).trace = [false] ∧
      ((∃ v, env.flushSessions false = Except.ok v) ↔
        responses (terminateAllSessions env req).trace = [flushSuccess]) ∧
      responses (terminateAllSessions env req).trace =
        [match env.flushSessions false with
          | Except.ok _ => flushSuccess
          | Except.error error => failure500 error]) := by
  rw [terminateInactiveSessions_trace, terminateAllSessions_trace]
  constructor
  · cases h : env.flushSessions true <;>
      simp [flushCalls, responses, Effect.isResponse, flushSuccess, failure500]
  · cases h : env.flushSessions false <;>
      simp [flushCalls, responses, Effect.isResponse, flushSuccess, failure500]

/-- C6, as stated, fails: a flush in which every delete succeeded and a flush
in which a delete failed get the same response. -/
theorem flush_response_hides_outcome :
    sampleEnv.flushSessions true =
        Except.ok (Val.obj [("deleted", Val.arr [Val.str "abc"]), ("failed", Val.arr [])]) ∧
      sampleEnvFlushFailed.flushSessions true =
        Except.ok (Val.obj [("deleted", Val.arr []),
          ("failed", Val.arr [Val.obj [("id", Val.str "abc"), ("reason", Val.str "Timeout")]])]) ∧
      responses (runHandler HandlerId.terminateInactiveSessions sampleEnv ⟨"", []⟩) =
        responses (runHandler HandlerId.terminateInactiveSessions sampleEnvFlushFailed ⟨"", []⟩) ∧
      responses (runHandler HandlerId.terminateAllSessions sampleEnv ⟨"", []⟩) =
        responses (runHandler HandlerId.terminateAllSessions sampleEnvFlushFailed ⟨"", []⟩) :=
  ⟨rfl, rfl, rfl, rfl⟩

/-- C6, amended: the response of a flush request does not carry what
`flushSessions` returned. Whenever the call completes, whatever it returned,
the only response is the fixed `{success: true, message: 'Flush completed
successfully'}`; so two completed flushes always get the same response. -/
theorem flush_response_independent_of_result (onlyInactive : Bool) (env1 env2 : Env)
    (req1 req2 : Request) (v1 v2 : Val)
    (h1 : env1.flushSessions onlyInactive = Except.ok v1)
    (h2 : env2.flushSessions onlyInactive = Except.ok v2) :
    let route := if onlyInactive then HandlerId.terminateInactiveSessions
      else HandlerId.terminateAllSessions
    responses (runHandler route env1 req1) = [flushSuccess] ∧
      responses (runHandler route env2 req2) = [flushSuccess] := by
  cases onlyInactive <;>
    simp [runHandler, terminateInactiveSessions_trace, terminateAllSessions_trace, h1, h2,
      responses, Effect.isResponse, flushSuccess]

theorem flush_response_independent_of_result_witness :
    responses (runHandler HandlerId.terminateInactiveSessions sampleEnv ⟨"", []⟩) =
        [flushSuccess] ∧
      responses (runHandler HandlerId.terminateInactiveSessions sampleEnvFlushFailed ⟨"", []⟩) =
        [flushSuccess] :=
  flush_response_independent_of_result true sampleEnv sampleEnvFlushFailed ⟨"", []⟩ ⟨"", []⟩
    _ _ rfl rfl

/-! ## Terminating and starting a session -/

/-- C4: with `deleteSession` as the spec describes it, a `terminateSession`
request for an id that the registry does not hold never gets the success
response `{success: true, message: 'Logged out successfully'}`: its only
response has status 500 and `success: false`, with the message of `NotFound`
when `validateSession` returned a report, and the message of the error that
`validateSession` threw otherwise. -/
theorem terminateSession_absent_fails_not_found (env : Env) (req : Request)
    (habsent : env.sessions req.sessionId = none)
    (hdelete : env.deleteSession = deleteSessionSpec env.sessions) :
    terminateSuccess ∉ (terminateSession env req).trace ∧
      responses (terminateSession env req).trace =
        [failure500 (match env.validateSession req.sessionId with
          | Except.ok _ => notFound
          | Except.error error => error)] := by
  rw [terminateSession_trace, hdelete]
  cases h : env.validateSession req.sessionId <;>
    simp [deleteSessionSpec, habsent, responses, Effect.isResponse, failure500,
      terminateSuccess]

theorem terminateSession_absent_fails_not_found_witness :
    terminateSuccess ∉ (terminateSession sampleEnv ⟨"gone", []⟩).trace ∧
      responses (terminateSession sampleEnv ⟨"gone", []⟩).trace = [failure500 notFound] :=
  terminateSession_absent_fails_not_found sampleEnv ⟨"gone", []⟩ rfl rfl

/-- C3: when `setupSession(sessionId)` returns a result with `success` true,
`startSession` sends `{success: true, message: setupSessionReturn.message}`
right after starting the readiness wait and before that wait settles: what
the handler does before the settlement is the same whether the wait
resolves, rejects or stays pending, and it ends with the acknowledgement,
which is the first response sent. -/
theorem startSession_ack_before_wait_settles (env : Env) (req : Request)
    (s : SetupSessionReturn) (hsetup : env.setupSession req.sessionId = Except.ok s)
    (hsuccess : s.success = true) :
    beforeWaitSettled (startSession env req) =
        [Effect.setupSession req.sessionId, Effect.waitForNestedObject s.client "pupPage",
          startSessionAck s.message] ∧
      startSessionAck s.message ∈ startSession env req ∧
      (responses (startSession env req)).head? = some (startSessionAck s.message) := by
  rw [startSession_trace, hsetup]
  cases hw : env.waitForNestedObject s.client "pupPage" <;>
    simp [hsuccess, hw, startSessionReactions, beforeWaitSettled, Effect.isWaitSettled,
      startSessionAck, responses, Effect.isResponse]

theorem startSession_ack_before_wait_settles_witness :
    beforeWaitSettled (startSession sampleEnv ⟨"abc", []⟩) =
        [Effect.setupSession "abc", Effect.waitForNestedObject (Val.host 7) "pupPage",
          startSessionAck (Val.str "Session initiated successfully")] ∧
      startSessionAck (Val.str "Session initiated successfully") ∈
        startSession sampleEnv ⟨"abc", []⟩ ∧
      (responses (startSession sampleEnv ⟨"abc", []⟩)).head? =
        some (startSessionAck (Val.str "Session initiated successfully")) :=
  startSession_ack_before_wait_settles sampleEnv ⟨"abc", []⟩
    ⟨true, Val.str "Session initiated successfully", Val.host 7⟩ rfl rfl

/-- C10 fails on `startSession`: when `setupSession` succeeds and the
readiness wait rejects, the handler sends the acknowledgement and then calls
`sendErrorResponse(res, 500, err.message)`: two responses for one request. -/
theorem startSession_responds_twice_when_wait_rejects :
    responses (runHandler HandlerId.startSession sampleEnv ⟨"abc", []⟩) =
      [startSessionAck (Val.str "Session initiated successfully"),
        Effect.sendErrorResponse 500 (Val.str "Timeout waiting for nested object")] := by
  rfl

/-! ## The `contentType` switch of `sendMessage` -/

/-- The message of the `default` branch lists `namedContentTypes`. -/
theorem invalidContentTypeMessage_names :
    invalidContentTypeMessage =
      "contentType invalid, must be " ++ ", ".intercalate namedContentTypes.dropLast ++
        ", or " ++ namedContentTypes.getLast (by simp [namedContentTypes]) := by
  decide

theorem catchTrace_ok (err : JsError) : ∀ e ∈ catchTrace err, sendEffectOk e := by
  simp [catchTrace, sendEffectOk]

theorem catchTrace_responses (err : JsError) :
    responses (catchTrace err) = [Effect.sendErrorResponse 500 err.message] := by
  simp [catchTrace, responses, Effect.isResponse]

theorem sendTrace_ok (env : Env) (sessionId : String) (args : List Val) :
    ∀ e ∈ sendTrace env sessionId args, sendEffectOk e := by
  unfold sendTrace
  cases hs : env.sessions sessionId with
  | none => simpa using catchTrace_ok _
  | some c =>
      cases hc : env.clientMethod c "sendMessage" args <;>
        simp [hc, catchTrace, sendEffectOk]

theorem sendTrace_responses_length (env : Env) (sessionId : String) (args : List Val) :
    (responses (sendTrace env sessionId args)).length = 1 := by
  unfold sendTrace
  cases hs : env.sessions sessionId with
  | none => simp [catchTrace, responses, Effect.isResponse]
  | some c =>
      cases hc : env.clientMethod c "sendMessage" args <;>
        simp [hc, catchTrace, responses, Effect.isResponse]

theorem sendMessage_accepted_ok (env : Env) (req : Request) (s : String)
    (hs : s ∈ acceptedContentTypes) (h : req.body.get "contentType" = Val.str s) :
    (∀ e ∈ (sendMessage env req).trace, sendEffectOk e) ∧
      (responses (sendMessage env req).trace).length = 1 := by
  simp only [acceptedContentTypes, List.mem_cons, List.mem_singleton, List.not_mem_nil,
    or_false] at hs
  have hget : sendEffectOk (Effect.sessionsGet req.sessionId) := by simp [sendEffectOk]
  have hurl : sendEffectOk (Effect.messageMediaFromUrl (req.body.get "content")) := by
    simp [sendEffectOk]
  rcases hs with rfl | rfl | rfl
  · rw [sendMessage_string env req h]
    refine ⟨?_, ?_⟩
    · intro e he
      rcases List.mem_cons.1 he with rfl | he
      · exact hget
      · exact sendTrace_ok _ _ _ e he
    · simpa [responses, Effect.isResponse] using sendTrace_responses_length env _ _
  · rw [sendMessage_fromUrl env req h]
    cases hm : env.messageMediaFromUrl (req.body.get "content") with
    | error err =>
        refine ⟨?_, ?_⟩
        · intro e he
          rcases List.mem_cons.1 he with rfl | he
          · exact hget
          rcases List.mem_cons.1 he with rfl | he
          · exact hurl
          · exact catchTrace_ok _ e he
        · simp [responses, Effect.isResponse, catchTrace]
    | ok media =>
        refine ⟨?_, ?_⟩
        · intro e he
          rcases List.mem_cons.1 he with rfl | he
          · exact hget
          rcases List.mem_cons.1 he with rfl | he
          · exact hurl
          · exact sendTrace_ok _ _ _ e he
        · simpa [responses, Effect.isResponse] using sendTrace_responses_length env _ _
  · rw [sendMessage_media env req h]
    cases hm : messageMediaOf (req.body.get "content") with
    | error err =>
        refine ⟨?_, ?_⟩
        · intro e he
          rcases List.mem_cons.1 he with rfl | he
          · exact hget
          · exact catchTrace_ok _ e he
        · simp [responses, Effect.isResponse, catchTrace]
    | ok media =>
        refine ⟨?_, ?_⟩
        · intro e he
          rcases List.mem_cons.1 he with rfl | he
          · exact hget
          · exact sendTrace_ok _ _ _ e he
        · simpa [responses, Effect.isResponse] using sendTrace_responses_length env _ _

theorem contentType_cases (v : Val) :
    (∃ s ∈ acceptedContentTypes, v = Val.str s) ∨
      (v ≠ Val.str "string" ∧ v ≠ Val.str "MessageMediaFromURL" ∧ v ≠ Val.str "MessageMedia") := by
  by_cases h1 : v = Val.str "string"
  · exact Or.inl ⟨_, by simp [acceptedContentTypes], h1⟩
  by_cases h2 : v = Val.str "MessageMediaFromURL"
  · exact Or.inl ⟨_, by simp [acceptedContentTypes], h2⟩
  by_cases h3 : v = Val.str "MessageMedia"
  · exact Or.inl ⟨_, by simp [acceptedContentTypes], h3⟩
  exact Or.inr ⟨h1, h2, h3⟩

/-- C8, as stated, fails: `Location`, which the error message names, is
rejected with that very message. -/
theorem sendMessage_rejects_named_location :
    "Location" ∈ namedContentTypes ∧
      invalidContentTypeRejection ∈
        (sendMessage sampleEnv ⟨"abc", [("contentType", Val.str "Location")]⟩).trace := by
  refine ⟨by decide, ?_⟩
  rw [sendMessage_default _ _ (by simp [Obj.get]) (by simp [Obj.get]) (by simp [Obj.get])]
  simp

/-- C8, amended: the content types that `sendMessage` accepts (does not reject
with 'contentType invalid') are exactly `string`, `MessageMediaFromURL` and
`MessageMedia`, the case labels that are not commented out; every one of
them is named in the error message. -/
theorem sendMessage_accepts_exactly_enabled_types (env : Env) (req : Request) :
    (invalidContentTypeRejection ∉ (sendMessage env req).trace ↔
        ∃ s ∈ acceptedContentTypes, req.body.get "contentType" = Val.str s) ∧
      acceptedContentTypes ⊆ namedContentTypes := by
  refine ⟨?_, by decide⟩
  constructor
  · intro hno
    rcases contentType_cases (req.body.get "contentType") with h | ⟨h1, h2, h3⟩
    · exact h
    · exact absurd (by rw [sendMessage_default env req h1 h2 h3]; simp) hno
  · rintro ⟨s, hs, h⟩ hin
    have := ((sendMessage_accepted_ok env req s hs h).1 _ hin).1 404 _ rfl
    exact absurd this (by decide)

/-- C9, as stated, fails: for `contentType` `'string'` and an id for which
`sessions.get` yields `undefined`, reading `client.sendMessage` throws, so
`client.sendMessage` is not called at all and the only response is the 500 of
the catch block. -/
theorem sendMessage_string_without_client_makes_no_call :
    Obj.get [("chatId", Val.str "1@c.us"), ("contentType", Val.str "string"),
        ("content", Val.str "hello")] "contentType" = Val.str "string" ∧
      sampleEnv.sessions "gone" = none ∧
      methodCalls "sendMessage"
          (sendMessage sampleEnv
            ⟨"gone", [("chatId", Val.str "1@c.us"), ("contentType", Val.str "string"),
              ("content", Val.str "hello")]⟩).trace = [] ∧
      responses
          (sendMessage sampleEnv
            ⟨"gone", [("chatId", Val.str "1@c.us"), ("contentType", Val.str "string"),
              ("content", Val.str "hello")]⟩).trace =
        [Effect.sendErrorResponse 500 (undefinedClientError "sendMessage").message] :=
  ⟨rfl, rfl, rfl, rfl⟩

/-- C9, amended: in `sendMessage`, a request whose `contentType` is none of
`'string'`, `'MessageMediaFromURL'` and `'MessageMedia'` (a missing one
included) makes no call of a client method, and its only response is the
error response with status 404; for `contentType` `'string'`, when
`sessions.get(req.params.sessionId)` yields a client, `client.sendMessage` is
called exactly once, with `(chatId, content, options)` as the request gave
them, and when it returns `messageOut` the only response is
`{success: true, message: messageOut}`. -/
theorem sendMessage_contentType_dispatch (env : Env) (req : Request) :
    (req.body.get "contentType" ≠ Val.str "string" →
      req.body.get "contentType" ≠ Val.str "MessageMediaFromURL" →
      req.body.get "contentType" ≠ Val.str "MessageMedia" →
        (∀ method, methodCalls method (sendMessage env req).trace = []) ∧
          responses (sendMessage env req).trace =
            [Effect.sendErrorResponse 404 (Val.str invalidContentTypeMessage)]) ∧
    (req.body.get "contentType" = Val.str "string" →
      ∀ c, env.sessions req.sessionId = some c →
        methodCalls "sendMessage" (sendMessage env req).trace =
            [(c, [req.body.get "chatId", req.body.get "content", req.body.get "options"])] ∧
          ∀ messageOut,
            env.clientMethod c "sendMessage"
                [req.body.get "chatId", req.body.get "content", req.body.get "options"] =
              Except.ok messageOut →
            responses (sendMessage env req).trace =
              [Effect.json 200 [("success", Val.bool true), ("message", messageOut)]]) := by
  constructor
  · intro h1 h2 h3
    rw [sendMessage_default env req h1 h2 h3]
    simp [methodCalls, responses, Effect.isResponse, invalidContentTypeRejection]
  · intro h c hc
    rw [sendMessage_string env req h]
    unfold sendTrace
    constructor
    · cases hm : env.clientMethod c "sendMessage"
          [req.body.get "chatId", req.body.get "content", req.body.get "options"] <;>
        simp [hc, hm, methodCalls, catchTrace]
    · intro messageOut hm
      simp [hc, hm, responses, Effect.isResponse]

theorem sendMessage_contentType_dispatch_witness :
    ((∀ method, methodCalls method (sendMessage sampleEnv ⟨"abc", []⟩).trace = []) ∧
        responses (sendMessage sampleEnv ⟨"abc", []⟩).trace =
          [Effect.sendErrorResponse 404 (Val.str invalidContentTypeMessage)]) ∧
      (methodCalls "sendMessage"
          (sendMessage sampleEnv
            ⟨"abc", [("chatId", Val.str "1@c.us"), ("contentType", Val.str "string"),
              ("content", Val.str "hello")]⟩).trace =
          [(7, [Val.str "1@c.us", Val.str "hello", Val.undefined])] ∧
        responses
            (sendMessage sampleEnv
              ⟨"abc", [("chatId", Val.str "1@c.us"), ("contentType", Val.str "string"),
                ("content", Val.str "hello")]⟩).trace =
          [Effect.json 200 [("success", Val.bool true), ("message", Val.host 99)]]) :=
  ⟨(sendMessage_contentType_dispatch sampleEnv ⟨"abc", []⟩).1
      (by simp [Obj.get]) (by simp [Obj.get]) (by simp [Obj.get]),
    ((sendMessage_contentType_dispatch sampleEnv
        ⟨"abc", [("chatId", Val.str "1@c.us"), ("contentType", Val.str "string"),
          ("content", Val.str "hello")]⟩).2 rfl 7 rfl).1,
    ((sendMessage_contentType_dispatch sampleEnv
        ⟨"abc", [("chatId", Val.str "1@c.us"), ("contentType", Val.str "string"),
          ("content", Val.str "hello")]⟩).2 rfl 7 rfl).2 (Val.host 99) rfl⟩

/-! ## Responses and registry use, handler by handler -/

theorem capabilityTrace_responses_length (env : Env) (sessionId method : String)
    (args : List Val) (body : Val → Obj) :
    (responses (capabilityTrace env sessionId method args body)).length = 1 := by
  unfold capabilityTrace
  cases hs : env.sessions sessionId with
  | none => simp [responses, Effect.isResponse]
  | some c =>
      cases hc : env.clientMethod c method args <;> simp [hc, responses, Effect.isResponse]

theorem capabilityTrace_json (env : Env) (sessionId method : String)
    (args : List Val) (body : Val → Obj) (st : Nat) (b : Obj)
    (h : Effect.json st b ∈ capabilityTrace env sessionId method args body) :
    ∃ v, b = body v := by
  unfold capabilityTrace at h
  cases hs : env.sessions sessionId with
  | none => simp [hs] at h
  | some c =>
      cases hc : env.clientMethod c method args with
      | error e => simp [hs, hc] at h
      | ok v =>
          simp only [hs, hc, List.mem_cons, List.mem_singleton, reduceCtorEq, false_or,
            Effect.json.injEq, List.not_mem_nil, or_false] at h
          exact ⟨v, h.2⟩

/-- The end of a chain is reached only when every middleware called `next()`. -/
theorem runChain_reached (passes : Middleware → Request → Bool) (req : Request)
    (ms : List Middleware) (h : (runChain passes req ms).2 = true) :
    ∀ m ∈ ms, passes m req = true := by
  induction ms with
  | nil => simp
  | cons m ms ih =>
      unfold runChain at h
      by_cases hp : passes m req = true
      · simp only [hp, if_true] at h
        intro m' hm'
        rcases List.mem_cons.1 hm' with rfl | hm'
        · exact hp
        · exact ih h m' hm'
      · simp [hp] at h

theorem dispatch_handled (passes : Middleware → Request → Bool) (env : Env) (r : Route)
    (req : Request) (h : (dispatch passes env r req).handled.isSome = true) :
    ∀ m ∈ r.middlewares, passes m req = true := by
  apply runChain_reached
  unfold dispatch at h
  by_cases hc : (runChain passes req r.middlewares).2 = true
  · exact hc
  · simp [hc] at h

theorem sendMessage_responses_length (env : Env) (req : Request) :
    (responses (sendMessage env req).trace).length = 1 := by
  rcases contentType_cases (req.body.get "contentType") with ⟨s, hs, h⟩ | ⟨h1, h2, h3⟩
  · exact (sendMessage_accepted_ok env req s hs h).2
  · rw [sendMessage_default env req h1 h2 h3]
    simp [responses, Effect.isResponse, invalidContentTypeRejection]

theorem sendMessage_json (env : Env) (req : Request) (st : Nat) (body : Obj)
    (hin : Effect.json st body ∈ (sendMessage env req).trace) :
    ∃ m, body = [("success", Val.bool true), ("message", m)] := by
  rcases contentType_cases (req.body.get "contentType") with ⟨s, hs, h⟩ | ⟨h1, h2, h3⟩
  · exact (((sendMessage_accepted_ok env req s hs h).1 _ hin).2 st body rfl).2
  · rw [sendMessage_default env req h1 h2 h3] at hin
    simp [invalidContentTypeRejection] at hin

theorem localCallbackExample_responses_length (env : Env) (req : Request) :
    (responses (localCallbackExample env req).trace).length = 1 := by
  obtain ⟨pre, hpre, h | ⟨err, h⟩⟩ := localCallbackExample_trace env req
  all_goals
    rw [h]
    have : pre.filter Effect.isResponse = [] :=
      List.filter_eq_nil_iff.2 (fun e he => by simp [(hpre e he).1])
    simp [responses, Effect.isResponse, this]

theorem localCallbackExample_json (env : Env) (req : Request) (st : Nat) (body : Obj)
    (hin : Effect.json st body ∈ (localCallbackExample env req).trace) :
    body = [("success", Val.bool true)] := by
  obtain ⟨pre, hpre, h | ⟨err, h⟩⟩ := localCallbackExample_trace env req
  all_goals
    rw [h] at hin
    rcases List.mem_append.1 hin with hin | hin
    · have := (hpre _ hin).1
      simp [Effect.isResponse] at this
    · simp at hin
      try exact hin.2

theorem localCallbackExample_no_client (env : Env) (req : Request) :
    ∀ e ∈ (localCallbackExample env req).trace, e.usesSessionClient = false := by
  obtain ⟨pre, hpre, h | ⟨err, h⟩⟩ := localCallbackExample_trace env req
  all_goals
    rw [h]
    intro e he
    rcases List.mem_append.1 he with he | he
    · exact (hpre e he).2
    · simp at he
      subst he
      rfl

theorem startSession_no_client (env : Env) (req : Request) :
    ∀ e ∈ startSession env req, e.usesSessionClient = false := by
  rw [startSession_trace]
  cases hs : env.setupSession req.sessionId with
  | error err => simp [Effect.usesSessionClient]
  | ok s =>
      cases hsucc : s.success
      · simp [hsucc, Effect.usesSessionClient]
      · cases hw : env.waitForNestedObject s.client "pupPage" <;>
          simp [hsucc, startSessionReactions, hw, Effect.usesSessionClient, startSessionAck]

theorem terminateSession_no_client (env : Env) (req : Request) :
    ∀ e ∈ (terminateSession env req).trace, e.usesSessionClient = false := by
  rw [terminateSession_trace]
  cases hv : env.validateSession req.sessionId with
  | error err => simp [Effect.usesSessionClient, failure500]
  | ok v =>
      cases hd : env.deleteSession req.sessionId v <;>
        simp [hd, Effect.usesSessionClient, failure500, terminateSuccess]

theorem flush_no_client (env : Env) (req : Request) :
    (∀ e ∈ (terminateInactiveSessions env req).trace, e.usesSessionClient = false) ∧
      ∀ e ∈ (terminateAllSessions env req).trace, e.usesSessionClient = false := by
  rw [terminateInactiveSessions_trace, terminateAllSessions_trace]
  constructor
  · cases h : env.flushSessions true <;>
      simp [Effect.usesSessionClient, failure500, flushSuccess]
  · cases h : env.flushSessions false <;>
      simp [Effect.usesSessionClient, failure500, flushSuccess]

/-! ## The middleware chains -/

theorem clientless_no_client (h : HandlerId) (hh : h ∈ clientlessHandlers) (env : Env)
    (req : Request) : ∀ e ∈ runHandler h env req, e.usesSessionClient = false := by
  simp only [clientlessHandlers, List.mem_cons, List.mem_singleton, List.not_mem_nil,
    or_false] at hh
  rcases hh with rfl | rfl | rfl | rfl | rfl | rfl
  · simp [runHandler, ping_trace, Effect.usesSessionClient]
  · exact localCallbackExample_no_client env req
  · exact startSession_no_client env req
  · exact terminateSession_no_client env req
  · exact (flush_no_client env req).1
  · exact (flush_no_client env req).2

theorem routes_gated_or_clientless (enableLocalCallbackExample : Bool) :
    ∀ r ∈ routes enableLocalCallbackExample,
      r.handler ∈ clientlessHandlers ∨
        Middleware.sessionValidationMiddleware ∈ r.middlewares := by
  cases enableLocalCallbackExample <;> decide

/-- A middleware is invoked only after those registered before it called `next()`. -/
theorem runChain_invoked (passes : Middleware → Request → Bool) (req : Request)
    (ms : List Middleware) (m : Middleware) (hm : m ∈ (runChain passes req ms).1) :
    ∀ m', ms.indexOf m' < ms.indexOf m → passes m' req = true := by
  induction ms with
  | nil => simp [runChain] at hm
  | cons a rest ih =>
      intro m' hlt
      unfold runChain at hm
      by_cases hp : passes a req = true
      · simp only [hp, if_true, List.mem_cons] at hm
        by_cases hma : a = m
        · subst hma
          simp at hlt
        · by_cases hm'a : a = m'
          · subst hm'a
            exact hp
          · rcases hm with hm | hm
            · exact absurd hm.symm hma
            · apply ih hm
              simpa [List.indexOf_cons, hma, hm'a] using hlt
      · simp only [hp, if_false, List.mem_singleton, Bool.false_eq_true] at hm
        subst hm
        simp at hlt

theorem routes_name_validation_first (enableLocalCallbackExample : Bool) :
    ∀ r ∈ routes enableLocalCallbackExample, Segment.param "sessionId" ∈ r.path →
      Middleware.sessionNameValidationMiddleware ∈ r.middlewares ∧
        (Middleware.sessionValidationMiddleware ∈ r.middlewares →
          r.middlewares.indexOf Middleware.sessionNameValidationMiddleware <
            r.middlewares.indexOf Middleware.sessionValidationMiddleware) := by
  cases enableLocalCallbackExample <;> decide

/-- C1: every registered route whose handler reads the registry with
`sessions.get` or uses the client found there has
`sessionValidationMiddleware` in its chain, and its handler is reached only
for a request on which that middleware called `next()`. -/
theorem session_use_routes_are_gated (enableLocalCallbackExample : Bool) (r : Route)
    (hr : r ∈ routes enableLocalCallbackExample)
    (huse : ∃ env req e, e ∈ runHandler r.handler env req ∧ e.usesSessionClient = true) :
    Middleware.sessionValidationMiddleware ∈ r.middlewares ∧
      ∀ passes env req, (dispatch passes env r req).handled.isSome = true →
        passes Middleware.sessionValidationMiddleware req = true := by
  have key : Middleware.sessionValidationMiddleware ∈ r.middlewares := by
    obtain ⟨env, req, e, he, hu⟩ := huse
    rcases routes_gated_or_clientless enableLocalCallbackExample r hr with hc | hg
    · rw [clientless_no_client r.handler hc env req e he] at hu
      exact absurd hu (by decide)
    · exact hg
  exact ⟨key, fun passes env req h => dispatch_handled passes env r req h _ key⟩

theorem session_use_routes_are_gated_witness :
    Middleware.sessionValidationMiddleware ∈
        [Middleware.apikeyMiddleware, Middleware.sessionNameValidationMiddleware,
          Middleware.sessionValidationMiddleware] ∧
      ∀ passes env req,
        (dispatch passes env
            ⟨Method.post, [Segment.lit "api", Segment.lit "sendMessage", Segment.param "sessionId"],
              [Middleware.apikeyMiddleware, Middleware.sessionNameValidationMiddleware,
                Middleware.sessionValidationMiddleware], HandlerId.sendMessage⟩
            req).handled.isSome = true →
          passes Middleware.sessionValidationMiddleware req = true :=
  session_use_routes_are_gated false
    ⟨Method.post, [Segment.lit "api", Segment.lit "sendMessage", Segment.param "sessionId"],
      [Middleware.apikeyMiddleware, Middleware.sessionNameValidationMiddleware,
        Middleware.sessionValidationMiddleware], HandlerId.sendMessage⟩
    (by decide)
    ⟨sampleEnv, ⟨"abc", []⟩, Effect.sessionsGet "abc", List.Mem.head _, rfl⟩

/-- C2: every registered route whose path takes a `:sessionId` parameter has
`sessionNameValidationMiddleware` in its chain, ahead of
`sessionValidationMiddleware` where that one is present; on every request
`sessionValidationMiddleware` is invoked, and the handler (with its calls of
`setupSession`, `sessions.get`, `validateSession` and `deleteSession`) is
reached, only after `sessionNameValidationMiddleware` called `next()`. -/
theorem sessionId_routes_validate_name_first (enableLocalCallbackExample : Bool) (r : Route)
    (hr : r ∈ routes enableLocalCallbackExample)
    (hparam : Segment.param "sessionId" ∈ r.path) :
    Middleware.sessionNameValidationMiddleware ∈ r.middlewares ∧
      (Middleware.sessionValidationMiddleware ∈ r.middlewares →
        r.middlewares.indexOf Middleware.sessionNameValidationMiddleware <
          r.middlewares.indexOf Middleware.sessionValidationMiddleware) ∧
      ∀ passes env req,
        (Middleware.sessionValidationMiddleware ∈ (dispatch passes env r req).invoked →
          passes Middleware.sessionNameValidationMiddleware req = true) ∧
        ((dispatch passes env r req).handled.isSome = true →
          passes Middleware.sessionNameValidationMiddleware req = true) := by
  obtain ⟨hin, hlt⟩ := routes_name_validation_first enableLocalCallbackExample r hr hparam
  refine ⟨hin, hlt, fun passes env req => ⟨fun hinv => ?_, fun h => ?_⟩⟩
  · have hmem : Middleware.sessionValidationMiddleware ∈ r.middlewares := by
      by_contra hno
      have : ∀ ms : List Middleware, ∀ m ∈ (runChain passes req ms).1, m ∈ ms := by
        intro ms
        induction ms with
        | nil => simp [runChain]
        | cons a rest ih =>
            intro m hm
            unfold runChain at hm
            by_cases hp : passes a req = true
            · simp only [hp, if_true, List.mem_cons] at hm
              rcases hm with rfl | hm
              · simp
              · exact List.mem_cons_of_mem _ (ih m hm)
            · simp only [hp, if_false, List.mem_singleton, Bool.false_eq_true] at hm
              simp [hm]
      exact hno (this _ _ hinv)
    exact runChain_invoked passes req r.middlewares _ hinv _ (hlt hmem)
  · exact dispatch_handled passes env r req h _ hin

theorem sessionId_routes_validate_name_first_witness :
    Middleware.sessionNameValidationMiddleware ∈
        [Middleware.apikeyMiddleware, Middleware.sessionNameValidationMiddleware,
          Middleware.sessionValidationMiddleware] ∧
      (Middleware.sessionValidationMiddleware ∈
          [Middleware.apikeyMiddleware, Middleware.sessionNameValidationMiddleware,
            Middleware.sessionValidationMiddleware] →
        [Middleware.apikeyMiddleware, Middleware.sessionNameValidationMiddleware,
              Middleware.sessionValidationMiddleware].indexOf
            Middleware.sessionNameValidationMiddleware <
          [Middleware.apikeyMiddleware, Middleware.sessionNameValidationMiddleware,
              Middleware.sessionValidationMiddleware].indexOf
            Middleware.sessionValidationMiddleware) ∧
      ∀ passes env req,
        (Middleware.sessionValidationMiddleware ∈
            (dispatch passes env
              ⟨Method.post,
                [Segment.lit "api", Segment.lit "sendMessage", Segment.param "sessionId"],
                [Middleware.apikeyMiddleware, Middleware.sessionNameValidationMiddleware,
                  Middleware.sessionValidationMiddleware],
                HandlerId.sendMessage⟩ req).invoked →
          passes Middleware.sessionNameValidationMiddleware req = true) ∧
        ((dispatch passes env
              ⟨Method.post,
                [Segment.lit "api", Segment.lit "sendMessage", Segment.param "sessionId"],
                [Middleware.apikeyMiddleware, Middleware.sessionNameValidationMiddleware,
                  Middleware.sessionValidationMiddleware],
                HandlerId.sendMessage⟩ req).handled.isSome = true →
          passes Middleware.sessionNameValidationMiddleware req = true) :=
  sessionId_routes_validate_name_first true
    ⟨Method.post, [Segment.lit "api", Segment.lit "sendMessage", Segment.param "sessionId"],
      [Middleware.apikeyMiddleware, Middleware.sessionNameValidationMiddleware,
        Middleware.sessionValidationMiddleware],
      HandlerId.sendMessage⟩
    (by decide) (by decide)

/-! ## The shape and number of responses -/

/-- C7, as stated, fails: the success response of `getSessionInfo` is sent
directly with `res.json` and has no `message` field. -/
theorem getSessionInfo_response_without_message :
    Effect.json 200 [("success", Val.bool true), ("sessionInfo", Val.host 1)] ∈
        runHandler HandlerId.getSessionInfo sampleEnv ⟨"abc", []⟩ ∧
      Obj.hasField [("success", Val.bool true), ("sessionInfo", Val.host 1)] "message" = false := by
  refine ⟨?_, by decide⟩
  simp [runHandler, getSessionInfo_trace, sampleEnv]

/-- C7, amended: every response body that a route handler sends directly
(via `res.json` or `res.status(...).json`) contains a `success` flag; on the
ping, startSession, sendMessage, terminateSession,
terminateInactiveSessions and terminateAllSessions routes it also contains a
`message` field. -/
theorem direct_responses_carry_success (h : HandlerId) (env : Env) (req : Request)
    (status : Nat) (body : Obj) (hin : Effect.json status body ∈ runHandler h env req) :
    body.hasField "success" = true ∧
      (h ∈ messageRoutes → body.hasField "message" = true) := by
  cases h
  case ping =>
    simp only [runHandler, ping_trace, List.mem_singleton, Effect.json.injEq] at hin
    rw [hin.2]
    simp [Obj.hasField]
  case localCallbackExample =>
    rw [localCallbackExample_json env req status body hin]
    simp [Obj.hasField, messageRoutes]
  case startSession =>
    simp only [runHandler, startSession_trace] at hin
    cases hs : env.setupSession req.sessionId with
    | error err => simp [hs] at hin
    | ok s =>
        cases hsucc : s.success
        · simp [hs, hsucc] at hin
        · cases hw : env.waitForNestedObject s.client "pupPage" <;>
            simp [hs, hsucc, hw, startSessionReactions, startSessionAck] at hin <;>
            simp [hin.2, Obj.hasField]
  case sendMessage =>
    obtain ⟨m, rfl⟩ := sendMessage_json env req status body hin
    simp [Obj.hasField]
  case getSessionInfo =>
    simp only [runHandler, getSessionInfo_trace] at hin
    cases hs : env.sessions req.sessionId with
    | none => simp [hs] at hin
    | some c =>
        simp [hs] at hin
        simp [hin.2, Obj.hasField, messageRoutes]
  case isRegisteredUser =>
    simp only [runHandler, isRegisteredUser_trace] at hin
    obtain ⟨v, rfl⟩ := capabilityTrace_json _ _ _ _ _ _ _ hin
    simp [Obj.hasField, messageRoutes]
  case createGroup =>
    simp only [runHandler, createGroup_trace] at hin
    obtain ⟨v, rfl⟩ := capabilityTrace_json _ _ _ _ _ _ _ hin
    simp [Obj.hasField, messageRoutes]
  case setStatus =>
    simp only [runHandler, setStatus_trace] at hin
    obtain ⟨v, rfl⟩ := capabilityTrace_json _ _ _ _ _ _ _ hin
    simp [Obj.hasField, messageRoutes]
  case getContacts =>
    simp only [runHandler, getContacts_trace] at hin
    obtain ⟨v, rfl⟩ := capabilityTrace_json _ _ _ _ _ _ _ hin
    simp [Obj.hasField, messageRoutes]
  case getChats =>
    simp only [runHandler, getChats_trace] at hin
    obtain ⟨v, rfl⟩ := capabilityTrace_json _ _ _ _ _ _ _ hin
    simp [Obj.hasField, messageRoutes]
  case getProfilePicUrl =>
    simp only [runHandler, getProfilePicUrl_trace] at hin
    obtain ⟨v, rfl⟩ := capabilityTrace_json _ _ _ _ _ _ _ hin
    simp [Obj.hasField, messageRoutes]
  case terminateSession =>
    simp only [runHandler, terminateSession_trace] at hin
    cases hv : env.validateSession req.sessionId with
    | error err =>
        simp [hv, failure500] at hin
        simp [hin.2, Obj.hasField]
    | ok v =>
        cases hd : env.deleteSession req.sessionId v <;>
          simp [hv, hd, failure500, terminateSuccess] at hin <;>
          simp [hin.2, Obj.hasField]
  case terminateInactiveSessions =>
    simp only [runHandler, terminateInactiveSessions_trace] at hin
    cases hf : env.flushSessions true <;>
      simp [hf, failure500, flushSuccess] at hin <;>
      simp [hin.2, Obj.hasField]
  case terminateAllSessions =>
    simp only [runHandler, terminateAllSessions_trace] at hin
    cases hf : env.flushSessions false <;>
      simp [hf, failure500, flushSuccess] at hin <;>
      simp [hin.2, Obj.hasField]

theorem direct_responses_carry_success_witness :
    Obj.hasField [("success", Val.bool false), ("message", Val.str "NotFound")] "success" = true ∧
      (HandlerId.terminateSession ∈ messageRoutes →
        Obj.hasField [("success", Val.bool false), ("message", Val.str "NotFound")] "message" =
          true) :=
  direct_responses_carry_success HandlerId.terminateSession sampleEnv ⟨"gone", []⟩ 500 _
    (by simp [runHandler, terminateSession_trace, sampleEnv, deleteSessionSpec, failure500,
      notFound])

/-- Every handler other than `startSession` sends exactly one response per request. -/
theorem handlers_besides_startSession_respond_once (h : HandlerId)
    (hne : h ≠ HandlerId.startSession) (env : Env) (req : Request) :
    (responses (runHandler h env req)).length = 1 := by
  cases h
  case startSession => exact absurd rfl hne
  case ping => simp [runHandler, ping_trace, responses, Effect.isResponse]
  case localCallbackExample => exact localCallbackExample_responses_length env req
  case sendMessage => exact sendMessage_responses_length env req
  case getSessionInfo =>
    simp only [runHandler, getSessionInfo_trace]
    cases hs : env.sessions req.sessionId <;> simp [responses, Effect.isResponse]
  case isRegisteredUser =>
    simp only [runHandler, isRegisteredUser_trace]
    exact capabilityTrace_responses_length _ _ _ _ _
  case createGroup =>
    simp only [runHandler, createGroup_trace]
    exact capabilityTrace_responses_length _ _ _ _ _
  case setStatus =>
    simp only [runHandler, setStatus_trace]
    exact capabilityTrace_responses_length _ _ _ _ _
  case getContacts =>
    simp only [runHandler, getContacts_trace]
    exact capabilityTrace_responses_length _ _ _ _ _
  case getChats =>
    simp only [runHandler, getChats_trace]
    exact capabilityTrace_responses_length _ _ _ _ _
  case getProfilePicUrl =>
    simp only [runHandler, getProfilePicUrl_trace]
    exact capabilityTrace_responses_length _ _ _ _ _
  case terminateSession =>
    simp only [runHandler, terminateSession_trace]
    cases hv : env.validateSession req.sessionId with
    | error err => simp [responses, Effect.isResponse, failure500]
    | ok v =>
        cases hd : env.deleteSession req.sessionId v <;>
          simp [hd, responses, Effect.isResponse, failure500, terminateSuccess]
  case terminateInactiveSessions =>
    simp only [runHandler, terminateInactiveSessions_trace]
    cases hf : env.flushSessions true <;>
      simp [responses, Effect.isResponse, failure500, flushSuccess]
  case terminateAllSessions =>
    simp only [runHandler, terminateAllSessions_trace]
    cases hf : env.flushSessions false <;>
      simp [responses, Effect.isResponse, failure500, flushSuccess]

/-- The number of responses of `startSession`: two exactly when `setupSession`
succeeded and the readiness wait rejects, one otherwise. -/
theorem startSession_responses_length (env : Env) (req : Request) :
    (responses (startSession env req)).length =
      match env.setupSession req.sessionId with
      | Except.error _ => 1
      | Except.ok s =>
          if s.success then
            match env.waitForNestedObject s.client "pupPage" with
            | WaitOutcome.rejects _ => 2
            | _ => 1
          else 1 := by
  rw [startSession_trace]
  cases hs : env.setupSession req.sessionId with
  | error err => simp [responses, Effect.isResponse]
  | ok s =>
      cases hsucc : s.success
      · simp [hsucc, responses, Effect.isResponse]
      · cases hw : env.waitForNestedObject s.client "pupPage" <;>
          simp [hsucc, hw, startSessionReactions, startSessionAck, responses,
            Effect.isResponse]

/-- Every handler outside `clientlessHandlers` begins with `sessions.get`. -/
theorem other_handlers_read_registry (h : HandlerId) (hh : h ∉ clientlessHandlers) :
    Effect.sessionsGet "abc" ∈ runHandler h sampleEnv ⟨"abc", []⟩ := by
  cases h <;> first
    | exact absurd (by decide) hh
    | exact List.Mem.head _

/-- The success response of `terminateSession` is sent exactly when
`validateSession` and `deleteSession` both complete without throwing: the
handler does not look into the validation report. -/
theorem terminateSession_success_iff (env : Env) (req : Request) :
    terminateSuccess ∈ (terminateSession env req).trace ↔
      ∃ validation result, env.validateSession req.sessionId = Except.ok validation ∧
        env.deleteSession req.sessionId validation = Except.ok result := by
  rw [terminateSession_trace]
  cases hv : env.validateSession req.sessionId with
  | error err => simp [failure500, terminateSuccess]
  | ok v =>
      cases hd : env.deleteSession req.sessionId v <;>
        simp [hd, failure500, terminateSuccess]

end WhatsappApi
